import Mathlib

/-!
Verification of the tool-augmented conversational agent (src/main.js,
src/tools.js): the tool-call dispatch loop `processChatWithTools`, the
registered tool handlers, and the fact-memory store.

Shallow embedding conventions:
* JavaScript runtime values that flow through `toolCall.function.arguments`
  are modelled by `JsValue`.
* A thrown JavaScript exception is modelled by `Except.error` carrying the
  message text; code with no surrounding try/catch propagates the error.
* External collaborators (the filesystem, `new Date().toISOString()`, the
  npm `glob` library, `JSON.parse`) are modelled as explicit state / oracle
  inputs in `World`.
* The memory backing file (llm_memory.json) is written only by
  `saveMemoryToFile` as `JSON.stringify` of the store; since no property
  consults the concrete JSON text, the file is modelled by the key→value
  store its text encodes (`World.memFile`). `loadMemoryFromFile` is the one
  function whose behaviour on arbitrary raw file text matters, so it is
  modelled over raw text together with a parse oracle.
-/

/-- A JavaScript runtime value, as far as the agent's tool plumbing needs:
the model backend delivers `arguments` as an object (ollama's
`ToolCall.function.arguments` is a JSON object), and handlers receive
whatever the dispatch loop passes. -/
inductive JsValue where
  | vstr (s : String)
  | vnum (n : Int)
  | vbool (b : Bool)
  | vnull
  | vundefined
  | vobj (fields : List (String × JsValue))
  | varr (elems : List JsValue)

/-- JavaScript truthiness, used by `if (include)` at tools.js:97. -/
def jsTruthy : JsValue → Bool
  | .vstr s => s ≠ ""
  | .vnum n => n ≠ 0
  | .vbool b => b
  | .vnull => false
  | .vundefined => false
  | .vobj _ => true
  | .varr _ => true

mutual
/-- JavaScript string coercion as in a template literal. Objects render as
"[object Object]", arrays join their elements with commas. -/
def jsToString : JsValue → String
  | .vstr s => s
  | .vnum n => toString n
  | .vbool b => if b then "true" else "false"
  | .vnull => "null"
  | .vundefined => "undefined"
  | .vobj _ => "[object Object]"
  | .varr l => String.intercalate "," (jsToStringList l)

def jsToStringList : List JsValue → List String
  | [] => []
  | v :: vs => jsToString v :: jsToStringList vs
end

/-- Description of a value in a Node `ERR_INVALID_ARG_TYPE` message. -/
def jsTypeDesc : JsValue → String
  | .vstr _ => "type string"
  | .vnum _ => "type number"
  | .vbool _ => "type boolean"
  | .vnull => "null"
  | .vundefined => "undefined"
  | .vobj _ => "an instance of Object"
  | .varr _ => "an instance of Array"

/-- A filesystem entry: a regular file with its text content, or a
directory with the names `fs.readdirSync` returns. -/
inductive FsEntry where
  | file (content : String)
  | dir (entries : List String)

/-- One tool-call request's `function` payload: `toolCall.function.name`
and `toolCall.function.arguments` as delivered by the model backend. -/
structure ToolCallFunc where
  name : String
  arguments : JsValue

/-- One tool-call request emitted by the model (`toolCall` in main.js):
an opaque id and the function payload. -/
structure ToolCall where
  id : String
  function : ToolCallFunc

/-- One conversational turn, as pushed onto `workingMessages`:
`tool_call_id`/`name` are set only on tool-role messages, `tool_calls`
is nonempty only on assistant messages that request tools. -/
structure ChatMessage where
  role : String
  content : String
  tool_call_id : Option String := none
  name : Option String := none
  tool_calls : List ToolCall := []

/-- Mutable process state and external-collaborator oracles threaded
through handler execution:
* `fs` — the filesystem, a path-indexed map of entries;
* `cwd` — `process.cwd()`;
* `memStore` — the module-level `memoryStore` Map of tools.js;
* `memFile` — the key→value store currently encoded by llm_memory.json
  (`none` = file absent), written by `saveMemoryToFile`;
* `writeFail` — oracle for `fs.writeFileSync` on the memory file:
  `none` = writes succeed, `some m` = writes raise an error with message `m`;
* `log` — lines written via `console.error`;
* `clock` — stream of `new Date().toISOString()` readings;
* `globSyncOracle` — the external npm glob library (`globSync`), a call on
  (pattern, searchPath) that returns file paths or raises. -/
structure World where
  fs : List (String × FsEntry)
  cwd : String
  memStore : List (String × JsValue)
  memFile : Option (List (String × JsValue))
  writeFail : Option String
  log : List String
  clock : List String
  globSyncOracle : JsValue → String → Except String (List String)

/-- Lookup of a path in the modelled filesystem (`fs.existsSync` is
`(lookupFs ...).isSome`; `fs.lstatSync(...).isFile()` / `.isDirectory()`
inspect the entry). -/
def lookupFs (fs : List (String × FsEntry)) (p : String) : Option FsEntry :=
  match fs.find? (fun e => e.1 == p) with
  | some e => some e.2
  | none => none

/-- `Map.prototype.get`: the value bound to `k`, if any. -/
def mapGet : List (String × JsValue) → String → Option JsValue
  | [], _ => none
  | (k', v') :: t, k => if k' == k then some v' else mapGet t k

/-- `Map.prototype.set`: replace the binding of `k` in place if present
(insertion position preserved), otherwise append a new binding. -/
def mapSet : List (String × JsValue) → String → JsValue → List (String × JsValue)
  | [], k, v => [(k, v)]
  | (k', v') :: t, k, v => if k' == k then (k, v) :: t else (k', v') :: mapSet t k v

/-- `path.isAbsolute` (posix): a string is absolute iff its first
character is a slash. Node validates its argument: a non-string raises
`TypeError [ERR_INVALID_ARG_TYPE]`, modelled as `Except.error`. -/
def pathIsAbsolute : JsValue → Except String Bool
  | .vstr s => .ok (s.data.head? == some '/')
  | v => .error ("TypeError: The \x22path\x22 argument must be of type string. Received " ++ jsTypeDesc v)

/-- `readFileJs` (tools.js:12–29). The guards at lines 14–22 run outside
any try/catch, so the TypeError raised by `path.isAbsolute` on a
non-string argument propagates to the caller. Reading an existing regular
file is modelled as succeeding, so the catch at tools.js:26 is not taken
in the model. -/
def readFileJs (fs : List (String × FsEntry)) (absolutePath : JsValue) : Except String String := do
  let isAbs ← pathIsAbsolute absolutePath
  let s := jsToString absolutePath
  if ¬ isAbs then
    .ok ("Error: Path must be absolute. Received: " ++ s)
  else
    match lookupFs fs s with
    | none => .ok ("Error: File not found at " ++ s)
    | some (.dir _) => .ok ("Error: Path is not a file: " ++ s)
    | some (.file content) => .ok content

/-- `listDirectoryJs` (tools.js:32–53); same guard structure as
`readFileJs`, listing succeeds on an existing directory. -/
def listDirectoryJs (fs : List (String × FsEntry)) (absolutePath : JsValue) : Except String String := do
  let isAbs ← pathIsAbsolute absolutePath
  let s := jsToString absolutePath
  if ¬ isAbs then
    .ok ("Error: Path must be absolute. Received: " ++ s)
  else
    match lookupFs fs s with
    | none => .ok ("Error: Directory not found at " ++ s)
    | some (.file _) => .ok ("Error: Path is not a directory: " ++ s)
    | some (.dir items) => .ok (String.intercalate "\n" items)

/-- The identifier `glob` referenced at tools.js:98 and tools.js:103 (and
tools.js:209): the module imports only `globSync` (tools.js:4) and never
binds `glob`, so evaluating `glob.sync` raises
`ReferenceError: glob is not defined`. -/
def globIdentifierLookup : Except String (List String) := .error "glob is not defined"

/-- Body of the try at tools.js:87–131: pick the enumeration branch on the
truthiness of `include` (tools.js:97); both branches evaluate `glob.sync`
before any other effect, so the regex scan of tools.js:106–131 is dead
code (summarised below by the no-match message of tools.js:127, which it
would produce on an empty file list). -/
def searchFileContentTryBody (pattern include_ : JsValue) (searchPath : String) :
    Except String String := do
  let _filesToSearch ← (if jsTruthy include_ then globIdentifierLookup else globIdentifierLookup)
  .ok ("No matches found for pattern '" ++ jsToString pattern ++ "' in '" ++ searchPath ++ "'" ++
    (if jsTruthy include_ then " with include '" ++ jsToString include_ ++ "'" else "") ++ ".")

/-- `searchFileContentJs` (tools.js:76–135): try body plus the catch at
tools.js:132–134. -/
def searchFileContentJs (pattern include_ : JsValue) (searchPath : String) : String :=
  match searchFileContentTryBody pattern include_ searchPath with
  | .ok s => s
  | .error e => "Error searching file content: " ++ e

/-- `globJs` (tools.js:137–159): calls the imported `globSync` (modelled by
the oracle in `World`); the whole body sits in try/catch, so a raised
error becomes the textual result of tools.js:157. -/
def globJs (w : World) (pattern : JsValue) (searchPath : String) : String :=
  match w.globSyncOracle pattern searchPath with
  | .error e => "Error performing glob search: " ++ e
  | .ok files =>
    if files.length == 0 then
      "No files found matching pattern '" ++ jsToString pattern ++ "' in '" ++ searchPath ++ "'."
    else
      String.intercalate "\n" files

/-- JavaScript array spread `[...v]`: arrays spread to their elements,
strings to their characters, anything else raises a TypeError. -/
def jsSpread (varName : String) : JsValue → Except String (List JsValue)
  | .varr l => .ok l
  | .vstr s => .ok (s.data.map (fun c => JsValue.vstr (String.mk [c])))
  | _ => .error ("TypeError: " ++ varName ++ " is not iterable")

/-- Body of the try at tools.js:176–239: build the exclude list
(spreading `exclude`, tools.js:195), build `patternsToGlob`
(spreading `paths` then `include`, tools.js:205), then for each pattern
call `glob.sync` (tools.js:209) — which raises ReferenceError, `glob`
being unbound. With no patterns the loop body never runs and the
no-files message of tools.js:220 is returned. -/
def readManyFilesTryBody (paths exclude include_ : JsValue) (useDefaultExcludes : Bool) :
    Except String String := do
  let defaultExcludes := if useDefaultExcludes then
    ["node_modules/**", ".git/**", "dist/**", "build/**", "temp/**", "*.log", "*.tmp", "*.bak"]
    else []
  let excludeList ← jsSpread "exclude" exclude
  let _finalExcludes := defaultExcludes.map JsValue.vstr ++ excludeList
  let pathsList ← jsSpread "paths" paths
  let includeList ← jsSpread "include" include_
  let patternsToGlob := pathsList ++ includeList
  match patternsToGlob with
  | [] => .ok "No files found matching the provided patterns."
  | _ :: _ => do
    let _files ← globIdentifierLookup
    -- Dead code: the lookup above always raises before any file is read.
    .ok "No files found matching the provided patterns."

/-- `readManyFilesJs` (tools.js:169–244): try body plus the catch at
tools.js:240–243. -/
def readManyFilesJs (paths exclude include_ : JsValue) (useDefaultExcludes : Bool) : String :=
  match readManyFilesTryBody paths exclude include_ useDefaultExcludes with
  | .ok s => s
  | .error e => "Error in readManyFiles: " ++ e

/-- `saveMemoryToFile` (tools.js:266–274): serialize the store and
`writeFileSync` it to llm_memory.json; a raised write error is caught and
logged via `console.error` (tools.js:272) — nothing is reported to the
caller and the function returns normally either way. The backing file is
modelled by the store its JSON text encodes. -/
def saveMemoryToFile (w : World) (store : List (String × JsValue)) : World :=
  match w.writeFail with
  | none => { w with memFile := some store }
  | some m => { w with log := w.log ++ ["Error saving memory to file: " ++ m] }

/-- `saveMemoryJs` (tools.js:283–295): key = `fact_` + current ISO
timestamp (head of the clock stream), insert into the in-memory Map,
write the store to the backing file, return the success message of
tools.js:294. -/
def saveMemoryJs (w : World) (fact : JsValue) : String × World :=
  let timestamp := w.clock.headD ""
  let key := "fact_" ++ timestamp
  let store := mapSet w.memStore key fact
  let w1 := saveMemoryToFile { w with memStore := store, clock := w.clock.tail } store
  ("Fact saved to memory with key: " ++ key ++ ". Total facts: " ++ toString store.length, w1)

/-- `retrieveMemoryJs` (tools.js:298–307), over the module-level
`memoryStore`. -/
def retrieveMemoryJs (store : List (String × JsValue)) (key : String) : String :=
  match mapGet store key with
  | some v => "Retrieved fact for key '" ++ key ++ "': " ++ jsToString v
  | none => "No fact found for key: " ++ key

/-- `listAllMemoryJs` (tools.js:310–322). -/
def listAllMemoryJs (store : List (String × JsValue)) : String :=
  if store.length == 0 then
    "No facts currently stored in memory."
  else
    "Stored facts:\n" ++ String.join (store.map (fun kv => "- " ++ kv.1 ++ ": " ++ jsToString kv.2 ++ "\n"))

/-- Outcome of `new Map(Object.entries(JSON.parse(data)))` on raw file
text: either the resulting Map's entries, or the message of the exception
the expression raised (e.g. a JSON.parse SyntaxError on malformed text). -/
inductive ParseOutcome where
  | ok (entries : List (String × JsValue))
  | err (msg : String)

/-- `loadMemoryFromFile` (tools.js:251–263): if the backing file exists,
read and parse it; any exception inside the try is caught, logged via
`console.error` (tools.js:260), and an empty Map is returned
(tools.js:262). `fileContent` is the raw file text (`none` = file
absent); `parse` is the oracle for JSON-parsing plus Map construction.
Returns the loaded store and the `console.error` lines produced. -/
def loadMemoryFromFile (fileContent : Option String) (parse : String → ParseOutcome) :
    List (String × JsValue) × List String :=
  match fileContent with
  | none => ([], [])
  | some data =>
    match parse data with
    | .ok entries => (entries, [])
    | .err m => ([], ["Error loading memory from file: " ++ m])

/-- Case-sensitive substring test: `q` occurs contiguously in `s`. -/
def containsSub (s q : String) : Bool := decide (q.data <:+: s.data)

/-- Modelled from the spec: `searchMemoryJs` is imported by src/main.js:14
from ./tools.js and registered as the search_memory handler
(main.js:251), but its implementation is missing from the provided
sources. Spec §4.1: "searchBySubstring(query) -> ordered sequence of
(key, fact) — all records whose value contains query as a case-sensitive
substring, in insertion order." -/
def searchMemoryJs (store : List (String × String)) (query : String) : List (String × String) :=
  store.filter (fun kv => containsSub kv.2 query)

/-- Modelled from the spec: the textual tool output search_memory hands
back to the dispatch loop (its implementation is missing from the
provided sources): the matching records of `searchMemoryJs`, rendered one
per line over the JS string coercions of the stored values and of the
handler's argument. -/
def searchMemoryToolOutput (w : World) (args : JsValue) : String :=
  String.intercalate "\n"
    ((searchMemoryJs (w.memStore.map (fun kv => (kv.1, jsToString kv.2))) (jsToString args)).map
      (fun kv => kv.1 ++ ": " ++ kv.2))

/-- `availableFunctions` (main.js:242–253): the Tool Registry, a static
mapping from tool name to handler. The dispatch loop invokes a resolved
handler as `functionToCall(functionArgs)` (main.js:309), i.e. the whole
`arguments` value is the handler's first positional parameter and the
remaining JS parameters take their declared defaults (`include` =
undefined and `searchPath` = cwd for search_file_content; `searchPath` =
cwd for glob; `exclude` = [], `include` = [], `useDefaultExcludes` = true
for read_many_files). -/
def availableFunctions : String → Option (World → JsValue → Except String (String × World))
  | "read_file" => some (fun w args => (readFileJs w.fs args).map (fun s => (s, w)))
  | "list_directory" => some (fun w args => (listDirectoryJs w.fs args).map (fun s => (s, w)))
  | "search_file_content" => some (fun w args => .ok (searchFileContentJs args .vundefined w.cwd, w))
  | "glob" => some (fun w args => .ok (globJs w args w.cwd, w))
  | "read_many_files" => some (fun w args => .ok (readManyFilesJs args (.varr []) (.varr []) true, w))
  | "save_memory" => some (fun w args => .ok (saveMemoryJs w args))
  | "search_memory" => some (fun w args => .ok (searchMemoryToolOutput w args, w))
  | "list_all_memory" => some (fun w _ => .ok (listAllMemoryJs w.memStore, w))
  | _ => none

/-- One iteration of the dispatch loop's per-call body (main.js:297–374):
resolve the tool name in the registry; if found, invoke the handler with
the whole `arguments` value (main.js:309 — there is no try/catch around
this invocation, so a raised exception propagates out of the loop); if
not found, synthesize the unknown-tool output (main.js:364); then build
the tool-role message pushed at main.js:368–373. -/
def runToolCall (w : World) (toolCall : ToolCall) : Except String (ChatMessage × World) :=
  match availableFunctions toolCall.function.name with
  | some functionToCall =>
    match functionToCall w toolCall.function.arguments with
    | .error e => .error e
    | .ok (toolOutput, w') =>
      .ok ({ role := "tool", tool_call_id := some toolCall.id,
             name := some toolCall.function.name, content := toolOutput }, w')
  | none =>
    .ok ({ role := "tool", tool_call_id := some toolCall.id,
           name := some toolCall.function.name,
           content := "Error: Tool '" ++ toolCall.function.name ++ "' not found." }, w)

/-- The `for (const toolCall of toolCalls)` loop of main.js:297–374: run
the requested calls in emission order, collecting the tool-role messages
each produces; a raised handler exception aborts the remainder. -/
def execToolCalls (w : World) : List ToolCall → Except String (List ChatMessage × World)
  | [] => .ok ([], w)
  | tc :: rest =>
    match runToolCall w tc with
    | .error e => .error e
    | .ok (m, w') =>
      match execToolCalls w' rest with
      | .error e => .error e
      | .ok (ms, w'') => .ok (m :: ms, w'')

/-- `processChatWithTools` (main.js:264–377), driven by a model-backend
oracle: `responses` is the sequence of assistant messages `ollama.chat`
returns, one per round. Each round appends the assistant message
(main.js:278); if it carries no tool calls the transcript is returned
(main.js:286–291); otherwise the requested calls run in order, each
appending one tool-role message, and the loop recurses into the next
round. `.error` models an exception escaping the loop: a raised handler
exception, or the model backend failing / yielding no further response. -/
def processChatWithTools :
    List ChatMessage → World → List ChatMessage → Except String (List ChatMessage × World)
  | [], _, _ => .error "model backend unavailable"
  | response :: rest, w, workingMessages =>
    let afterAssistant := workingMessages ++ [response]
    if response.tool_calls.isEmpty then
      .ok (afterAssistant, w)
    else
      match execToolCalls w response.tool_calls with
      | .error e => .error e
      | .ok (toolMsgs, w') => processChatWithTools rest w' (afterAssistant ++ toolMsgs)

/-- The system directive placed at index 0 of the global `messages` array
at session start (main.js:383–389). -/
def systemDirective (cwd : String) : ChatMessage :=
  { role := "system",
    content := "You are a helpful assistant. The user's current working directory is '" ++ cwd ++
      "'. When you use tools that require a path, use this path as the default unless the user specifies a different one." }

/-- The initial global `messages` array (main.js:383–389): exactly the
system directive. -/
def initialMessages (cwd : String) : List ChatMessage := [systemDirective cwd]

/-! ## Concrete inputs used by counterexamples and witnesses -/

/-- A session state: cwd `/home/user`, the file `/tmp/notes.txt` holding
"hello", empty memory, no backing file yet, writes succeeding, one
pending clock reading. -/
def baseWorld : World :=
  { fs := [("/tmp/notes.txt", .file "hello")], cwd := "/home/user",
    memStore := [], memFile := none, writeFail := none, log := [],
    clock := ["2024-01-01T00:00:00.000Z"], globSyncOracle := fun _ _ => .ok [] }

/-- A read_file request as the model backend emits it: `arguments` is the
JSON object carrying `absolute_path`. -/
def readFileCall : ToolCall :=
  { id := "call_1",
    function := { name := "read_file",
                  arguments := .vobj [("absolute_path", .vstr "/tmp/notes.txt")] } }

/-- A save_memory request with a fact argument object. -/
def saveCall : ToolCall :=
  { id := "call_3",
    function := { name := "save_memory", arguments := .vobj [("fact", .vstr "user likes blue")] } }

/-- A request naming write_file, which is absent from the registry
(its schema and mapping are commented out in main.js). -/
def unknownCall : ToolCall :=
  { id := "call_2",
    function := { name := "write_file", arguments := .vobj [("absolute_path", .vstr "/tmp/out.txt")] } }

/-- `baseWorld` with memory-file writes failing (e.g. a full disk). -/
def failWorld : World := { baseWorld with writeFail := some "ENOSPC: no space left on device" }

/-! ## Helper lemmas -/

theorem mapGet_mapSet_self (s : List (String × JsValue)) (k : String) (v : JsValue) :
    mapGet (mapSet s k v) k = some v := by
  induction s with
  | nil => simp [mapSet, mapGet]
  | cons hd t ih =>
    obtain ⟨k', v'⟩ := hd
    by_cases h : k' == k
    · simp [mapSet, mapGet, h]
    · simp [mapSet, mapGet, h, ih]

theorem runToolCall_ok_shape (w : World) (tc : ToolCall) (m : ChatMessage) (w' : World)
    (h : runToolCall w tc = .ok (m, w')) :
    m.role = "tool" ∧ m.tool_call_id = some tc.id := by
  unfold runToolCall at h
  cases hA : availableFunctions tc.function.name with
  | none =>
    simp only [hA] at h
    cases h
    exact ⟨rfl, rfl⟩
  | some f =>
    simp only [hA] at h
    cases hf : f w tc.function.arguments with
    | error e => simp only [hf] at h; cases h
    | ok p =>
      obtain ⟨out, w1⟩ := p
      simp only [hf] at h
      cases h
      exact ⟨rfl, rfl⟩

theorem execToolCalls_ok_shape (w : World) (calls : List ToolCall)
    (out : List ChatMessage) (w' : World)
    (h : execToolCalls w calls = .ok (out, w')) :
    out.length = calls.length
    ∧ out.map (fun m => m.tool_call_id) = calls.map (fun c => some c.id)
    ∧ ∀ m ∈ out, m.role = "tool" := by
  induction calls generalizing w out w' with
  | nil =>
    simp [execToolCalls] at h
    simp [h.1]
  | cons tc rest ih =>
    unfold execToolCalls at h
    cases hR : runToolCall w tc with
    | error e => simp only [hR] at h; cases h
    | ok p =>
      obtain ⟨m, w1⟩ := p
      simp only [hR] at h
      cases hE : execToolCalls w1 rest with
      | error e => simp only [hE] at h; cases h
      | ok q =>
        obtain ⟨ms, w2⟩ := q
        simp only [hE] at h
        cases h
        obtain ⟨hlen, hids, hroles⟩ := ih w1 ms _ hE
        obtain ⟨hrole, hid⟩ := runToolCall_ok_shape w tc m w1 hR
        refine ⟨by simp [hlen], by simp [hid, hids], ?_⟩
        intro x hx
        rcases List.mem_cons.mp hx with h1 | h2
        · rw [h1]; exact hrole
        · exact hroles x h2

theorem processChatWithTools_cons (response : ChatMessage) (rest : List ChatMessage)
    (w : World) (msgs : List ChatMessage) :
    processChatWithTools (response :: rest) w msgs =
      if response.tool_calls.isEmpty then .ok (msgs ++ [response], w)
      else match execToolCalls w response.tool_calls with
        | .error e => .error e
        | .ok (toolMsgs, w') => processChatWithTools rest w' (msgs ++ [response] ++ toolMsgs) := rfl

theorem processChatWithTools_extends (responses : List ChatMessage) (w : World)
    (msgs out : List ChatMessage) (w' : World)
    (h : processChatWithTools responses w msgs = .ok (out, w')) :
    ∃ t, out = msgs ++ t := by
  induction responses generalizing w msgs with
  | nil => simp [processChatWithTools] at h
  | cons r rest ih =>
    rw [processChatWithTools_cons] at h
    cases he : r.tool_calls.isEmpty with
    | true =>
      rw [he] at h
      simp at h
      exact ⟨[r], h.1.symm⟩
    | false =>
      rw [he] at h
      simp only [Bool.false_eq_true, if_false] at h
      cases hE : execToolCalls w r.tool_calls with
      | error e => rw [hE] at h; cases h
      | ok p =>
        obtain ⟨toolMsgs, w1⟩ := p
        rw [hE] at h
        obtain ⟨t, ht⟩ := ih w1 (msgs ++ [r] ++ toolMsgs) h
        exact ⟨[r] ++ toolMsgs ++ t, by rw [ht]; simp⟩

/-! ## Claim theorems -/

/-- C1 (amended): in every round whose handler invocations all return
normally — i.e. whenever the ExecutingTools phase `execToolCalls`
completes with `.ok` — the dispatch loop appends exactly N tool-role
messages for the N requests of the round, the i-th carrying the i-th
request's id as its `tool_call_id`, in request order, and only then calls
the model again on the extended transcript. -/
theorem c1_round_appends_matching_tool_messages (w : World) (calls : List ToolCall)
    (out : List ChatMessage) (w' : World)
    (h : execToolCalls w calls = .ok (out, w')) :
    out.length = calls.length
    ∧ out.map (fun m => m.tool_call_id) = calls.map (fun c => some c.id)
    ∧ (∀ m ∈ out, m.role = "tool")
    ∧ (∀ (response : ChatMessage) (rest msgs : List ChatMessage),
        response.tool_calls = calls → calls ≠ [] →
        processChatWithTools (response :: rest) w msgs =
          processChatWithTools rest w' (msgs ++ [response] ++ out)) := by
  obtain ⟨hlen, hids, hroles⟩ := execToolCalls_ok_shape w calls out w' h
  refine ⟨hlen, hids, hroles, ?_⟩
  intro response rest msgs hrc hne
  have hci : calls.isEmpty = false := by
    cases calls with
    | nil => exact absurd rfl hne
    | cons a t => rfl
  rw [processChatWithTools_cons, hrc]
  simp [hci, h]

/-- C1 (counterexample to the claim as stated): a round carrying one
read_file request (N = 1) appends zero tool-role messages and never calls
the model again — the handler invocation at main.js:309 passes the whole
`arguments` object to `readFileJs`, whose `path.isAbsolute` guard raises
a TypeError outside any try/catch, aborting the ExecutingTools phase. -/
theorem c1_read_file_round_aborts :
    execToolCalls baseWorld [readFileCall] =
      .error "TypeError: The \x22path\x22 argument must be of type string. Received an instance of Object"
    ∧ ¬ ∃ out w', execToolCalls baseWorld [readFileCall] = .ok (out, w') := by
  refine ⟨rfl, ?_⟩
  rintro ⟨out, w', h⟩
  rw [(rfl : execToolCalls baseWorld [readFileCall] =
    Except.error "TypeError: The \x22path\x22 argument must be of type string. Received an instance of Object")] at h
  cases h

/-- Expected first tool message of the concrete two-call round below. -/
def c1msg1 : ChatMessage :=
  { role := "tool", tool_call_id := some "call_3", name := some "save_memory",
    content := "Fact saved to memory with key: fact_2024-01-01T00:00:00.000Z. Total facts: 1" }

/-- Expected second tool message of the concrete two-call round below. -/
def c1msg2 : ChatMessage :=
  { role := "tool", tool_call_id := some "call_2", name := some "write_file",
    content := "Error: Tool 'write_file' not found." }

/-- Expected world after the concrete two-call round below. -/
def c1World1 : World :=
  { baseWorld with
    memStore := [("fact_2024-01-01T00:00:00.000Z", .vobj [("fact", .vstr "user likes blue")])],
    memFile := some [("fact_2024-01-01T00:00:00.000Z", .vobj [("fact", .vstr "user likes blue")])],
    clock := [] }

/-- C1 (witness): the amended theorem applied to a concrete round of two
requests (save_memory then an unknown tool), whose execution completes
and yields two tool messages with matching ids in order. -/
theorem c1_concrete_round_witness :
    [c1msg1, c1msg2].length = [saveCall, unknownCall].length
    ∧ [c1msg1, c1msg2].map (fun m => m.tool_call_id) =
        [saveCall, unknownCall].map (fun c => some c.id) := by
  have h : execToolCalls baseWorld [saveCall, unknownCall] = .ok ([c1msg1, c1msg2], c1World1) := by
    rfl
  obtain ⟨hlen, hids, _, _⟩ :=
    c1_round_appends_matching_tool_messages baseWorld [saveCall, unknownCall]
      [c1msg1, c1msg2] c1World1 h
  exact ⟨hlen, hids⟩

/-- C2 (code bug, evaluated at the failing input): read_file resolves in
the registry, yet invoking its handler the way the dispatch loop does —
`functionToCall(functionArgs)` at main.js:309, passing the whole
arguments object where `readFileJs` expects the path string — raises a
TypeError that propagates out of the loop instead of being captured as
the tool message's textual content. -/
theorem c2_resolved_handler_raises_out_of_loop :
    (availableFunctions "read_file").isSome = true
    ∧ runToolCall baseWorld readFileCall =
        .error "TypeError: The \x22path\x22 argument must be of type string. Received an instance of Object" :=
  ⟨rfl, rfl⟩

/-- The user turn of the C3 scenario. -/
def noteUserMsg : ChatMessage := { role := "user", content := "what's in /tmp/notes.txt?" }

/-- The assistant message of the C3 scenario, requesting read_file on
/tmp/notes.txt. -/
def asstReadFile : ChatMessage := { role := "assistant", content := "", tool_calls := [readFileCall] }

/-- C3 (code bug, evaluated at the failing input): /tmp/notes.txt exists
with content "hello", and `readFileJs` would return "hello" were it given
the path string (as the commented-out dispatch of main.js:310–312 did);
but the live dispatch passes the whole arguments object, so the round
raises a TypeError and no tool message with content "hello" is ever
appended. -/
theorem c3_read_file_scenario_aborts :
    lookupFs baseWorld.fs "/tmp/notes.txt" = some (.file "hello")
    ∧ readFileJs baseWorld.fs (.vstr "/tmp/notes.txt") = .ok "hello"
    ∧ processChatWithTools [asstReadFile] baseWorld (initialMessages "/home/user" ++ [noteUserMsg]) =
        .error "TypeError: The \x22path\x22 argument must be of type string. Received an instance of Object" :=
  ⟨rfl, rfl, rfl⟩

/-- C4 (counterexample to the claim as stated): when the backing-store
write fails, `saveMemoryJs` returns the very same success text as when it
succeeds — the fact is not persisted (the backing file is still absent)
and the returned textual result does not inform the caller of the
failure. -/
theorem c4_silent_write_failure :
    (saveMemoryJs failWorld (.vstr "user likes blue")).1 =
      (saveMemoryJs baseWorld (.vstr "user likes blue")).1
    ∧ (saveMemoryJs failWorld (.vstr "user likes blue")).1 =
        "Fact saved to memory with key: fact_2024-01-01T00:00:00.000Z. Total facts: 1"
    ∧ (saveMemoryJs failWorld (.vstr "user likes blue")).2.memFile = none :=
  ⟨rfl, rfl, rfl⟩

/-- C4 (amended): after `save` returns, the fact is inserted in the
in-memory store and the returned text reports success with the new key
and size — regardless of the write outcome. When the backing-store write
succeeds the updated store is persisted; when it fails the backing store
is left unchanged and the failure is only logged to the console
(`console.error`), not reflected in the returned textual result. -/
theorem c4_save_reports_success_regardless (w : World) (fact : JsValue) :
    (saveMemoryJs w fact).1 =
      "Fact saved to memory with key: " ++ ("fact_" ++ w.clock.headD "") ++ ". Total facts: " ++
        toString (mapSet w.memStore ("fact_" ++ w.clock.headD "") fact).length
    ∧ mapGet (saveMemoryJs w fact).2.memStore ("fact_" ++ w.clock.headD "") = some fact
    ∧ (w.writeFail = none →
        (saveMemoryJs w fact).2.memFile =
          some (mapSet w.memStore ("fact_" ++ w.clock.headD "") fact))
    ∧ (∀ m, w.writeFail = some m →
        (saveMemoryJs w fact).2.memFile = w.memFile
        ∧ (saveMemoryJs w fact).2.log = w.log ++ ["Error saving memory to file: " ++ m]) := by
  refine ⟨?_, ?_, ?_, ?_⟩
  · simp [saveMemoryJs]
  · simp [saveMemoryJs, saveMemoryToFile]
    cases hw : w.writeFail with
    | none => simp [mapGet_mapSet_self]
    | some m => simp [mapGet_mapSet_self]
  · intro hw; simp [saveMemoryJs, saveMemoryToFile, hw]
  · intro m hw; simp [saveMemoryJs, saveMemoryToFile, hw]

/-- C4 (witness): the amended theorem at a concrete successful save — the
updated store is persisted to the backing file. -/
theorem c4_successful_write_witness :
    (saveMemoryJs baseWorld (.vstr "user likes blue")).2.memFile =
      some [("fact_2024-01-01T00:00:00.000Z", .vstr "user likes blue")] := by
  have h := (c4_save_reports_success_regardless baseWorld (.vstr "user likes blue")).2.2.1 rfl
  exact h

/-- C5: `searchMemoryJs` (modelled from the spec, its implementation being
missing from the provided sources) returns exactly the records whose
value contains the query as a case-sensitive contiguous substring, in
insertion (store) order: the result is a sublist of the store, and a
record belongs to it iff it belongs to the store and its value contains
the query. -/
theorem c5_search_by_substring (store : List (String × String)) (query : String) :
    List.Sublist (searchMemoryJs store query) store
    ∧ ∀ kv : String × String,
        kv ∈ searchMemoryJs store query ↔ kv ∈ store ∧ query.data <:+: kv.2.data := by
  constructor
  · exact List.filter_sublist store
  · intro kv
    simp [searchMemoryJs, List.mem_filter, containsSub]

/-- C6: a request naming a tool absent from the registry produces a
tool-role message whose content reports the tool was not found
("Error: Tool '...' not found.", main.js:364), raises nothing, and the
dispatch loop proceeds to the next round with the model on the extended
transcript. -/
theorem c6_unknown_tool_continues (w : World) (tc : ToolCall)
    (h : availableFunctions tc.function.name = none) :
    runToolCall w tc =
      .ok ({ role := "tool", tool_call_id := some tc.id, name := some tc.function.name,
             content := "Error: Tool '" ++ tc.function.name ++ "' not found." }, w)
    ∧ ∀ (response : ChatMessage) (rest msgs : List ChatMessage),
        response.tool_calls = [tc] →
        processChatWithTools (response :: rest) w msgs =
          processChatWithTools rest w
            (msgs ++ [response] ++
              [{ role := "tool", tool_call_id := some tc.id, name := some tc.function.name,
                 content := "Error: Tool '" ++ tc.function.name ++ "' not found." }]) := by
  have h1 : runToolCall w tc =
      .ok ({ role := "tool", tool_call_id := some tc.id, name := some tc.function.name,
             content := "Error: Tool '" ++ tc.function.name ++ "' not found." }, w) := by
    unfold runToolCall
    rw [h]
  refine ⟨h1, ?_⟩
  intro response rest msgs hrc
  have hE : execToolCalls w [tc] =
      .ok ([{ role := "tool", tool_call_id := some tc.id, name := some tc.function.name,
              content := "Error: Tool '" ++ tc.function.name ++ "' not found." }], w) := by
    unfold execToolCalls
    rw [h1]
    rfl
  rw [processChatWithTools_cons, hrc]
  simp [hE]

/-- C6 (witness): the theorem at the concrete write_file request, a name
the registry does not contain. -/
theorem c6_unknown_tool_witness :
    runToolCall baseWorld unknownCall =
      .ok ({ role := "tool", tool_call_id := some "call_2", name := some "write_file",
             content := "Error: Tool 'write_file' not found." }, baseWorld) := by
  have h := (c6_unknown_tool_continues baseWorld unknownCall rfl).1
  exact h

/-- C7: round-trip — saving a fact inserts it under the key
`fact_<timestamp>` built from the current clock reading, the value read
back for that key is the original fact unmodified (both at the Map level
and through `retrieveMemoryJs`), and `save` returns that key in its
result text. -/
theorem c7_save_get_roundtrip (w : World) (fact : String) :
    mapGet (saveMemoryJs w (.vstr fact)).2.memStore ("fact_" ++ w.clock.headD "") =
      some (.vstr fact)
    ∧ retrieveMemoryJs (saveMemoryJs w (.vstr fact)).2.memStore ("fact_" ++ w.clock.headD "") =
        "Retrieved fact for key '" ++ ("fact_" ++ w.clock.headD "") ++ "': " ++ fact
    ∧ (saveMemoryJs w (.vstr fact)).1 =
        "Fact saved to memory with key: " ++ ("fact_" ++ w.clock.headD "") ++ ". Total facts: " ++
          toString (mapSet w.memStore ("fact_" ++ w.clock.headD "") (.vstr fact)).length := by
  have hm : (saveMemoryJs w (.vstr fact)).2.memStore =
      mapSet w.memStore ("fact_" ++ w.clock.headD "") (.vstr fact) := by
    simp [saveMemoryJs, saveMemoryToFile]
    cases w.writeFail <;> simp
  refine ⟨?_, ?_, by simp [saveMemoryJs]⟩
  · rw [hm, mapGet_mapSet_self]
  · rw [retrieveMemoryJs, hm, mapGet_mapSet_self]
    rfl

/-- C8: whenever the dispatch loop returns a transcript, the input
transcript is an unmodified prefix of it (messages are only appended at
the end), and if the input began with the session's system directive then
so does the returned transcript. -/
theorem c8_transcript_grows_only (responses : List ChatMessage) (w : World)
    (msgs out : List ChatMessage) (w' : World)
    (h : processChatWithTools responses w msgs = .ok (out, w')) :
    (∃ t, out = msgs ++ t)
    ∧ (∀ (cwd : String) (rest : List ChatMessage),
        msgs = systemDirective cwd :: rest → out.head? = some (systemDirective cwd)) := by
  obtain ⟨t, ht⟩ := processChatWithTools_extends responses w msgs out w' h
  refine ⟨⟨t, ht⟩, ?_⟩
  intro cwd rest hm
  rw [ht, hm]
  rfl

/-- The user turn of the concrete C8 run. -/
def c8UserMsg : ChatMessage := { role := "user", content := "hello" }

/-- The tool-free model reply of the concrete C8 run. -/
def c8FinalMsg : ChatMessage := { role := "assistant", content := "Hi there!" }

/-- C8 (witness): the theorem at a concrete single-round run starting from
the initial system directive plus one user message. -/
theorem c8_transcript_witness :
    ([systemDirective "/home/user", c8UserMsg, c8FinalMsg].head? =
      some (systemDirective "/home/user"))
    ∧ ∃ t, [systemDirective "/home/user", c8UserMsg, c8FinalMsg] =
        (initialMessages "/home/user" ++ [c8UserMsg]) ++ t := by
  have h : processChatWithTools [c8FinalMsg] baseWorld
      (initialMessages "/home/user" ++ [c8UserMsg]) =
      .ok ([systemDirective "/home/user", c8UserMsg, c8FinalMsg], baseWorld) := by rfl
  obtain ⟨hext, hhead⟩ := c8_transcript_grows_only [c8FinalMsg] baseWorld
    (initialMessages "/home/user" ++ [c8UserMsg])
    [systemDirective "/home/user", c8UserMsg, c8FinalMsg] baseWorld h
  exact ⟨hhead "/home/user" [c8UserMsg] rfl, hext⟩

/-- C9: `loadMemoryFromFile` returns an empty store when the backing file
is absent, and when the file is present but its content is malformed
(the parse raises), it logs the error and returns an empty store — in
either case it returns normally rather than crashing the process. -/
theorem c9_load_absent_or_malformed (parse : String → ParseOutcome) :
    loadMemoryFromFile none parse = ([], [])
    ∧ ∀ (data m : String), parse data = .err m →
        loadMemoryFromFile (some data) parse = ([], ["Error loading memory from file: " ++ m]) := by
  refine ⟨rfl, ?_⟩
  intro data m h
  simp [loadMemoryFromFile, h]

/-- C9 (witness): the theorem at concrete malformed file content whose
parse raises a SyntaxError. -/
theorem c9_malformed_witness :
    loadMemoryFromFile (some "this is not json") (fun _ => ParseOutcome.err "Unexpected token")
      = ([], ["Error loading memory from file: Unexpected token"]) := by
  exact (c9_load_absent_or_malformed (fun _ => ParseOutcome.err "Unexpected token")).2
    "this is not json" "Unexpected token" rfl

/-- C10: for every combination of arguments, `searchFileContentJs` returns
the error string "Error searching file content: glob is not defined"
(in particular a string beginning with "Error searching file content:")
and never any match results: both enumeration branches reference the
unbound identifier `glob`, raising a ReferenceError that the surrounding
catch converts to this text. -/
theorem c10_search_file_content_always_error (pattern include_ : JsValue) (searchPath : String) :
    searchFileContentJs pattern include_ searchPath =
      "Error searching file content: glob is not defined"
    ∧ ∃ rest, searchFileContentJs pattern include_ searchPath =
        "Error searching file content:" ++ rest := by
  have h : searchFileContentJs pattern include_ searchPath =
      "Error searching file content: glob is not defined" := by
    unfold searchFileContentJs searchFileContentTryBody globIdentifierLookup
    cases hj : jsTruthy include_ <;> simp only [hj, Bool.false_eq_true, if_false, if_true] <;> rfl
  exact ⟨h, " glob is not defined", h.trans (by rfl)⟩
